import Mathlib

/-!
Verification of the urnisa-backend HTTP server (`src/server.js` and the
MongoDB-backed variant).  The JavaScript handlers are shallowly embedded as
pure Lean functions: JSON values become the inductive `Value`, the Mongo
`Setting` collection becomes an association list, request handlers become
functions from their inputs (headers, body fields, connection state) to a
status code together with the resulting store, and JavaScript truthiness,
strict equality (`===`), `parseInt`, `BigInt`, `trim` and `%` are modelled
explicitly.
-/

namespace Urnisa

/-- Model of a JavaScript/JSON value as it appears in request bodies and the
settings store (`mongoose.Schema.Types.Mixed`). -/
inductive Value where
  | vstr (s : String)
  | vnum (n : Int)
  | vbool (b : Bool)
  | vnull
  | varr (l : List String)

/-- JavaScript truthiness: `""`, `0`, `false`, `null` are falsy; any array is
truthy. -/
def Value.truthy : Value → Bool
  | .vstr s => s ≠ ""
  | .vnum n => n ≠ 0
  | .vbool b => b
  | .vnull => false
  | .varr _ => true

/-- Truthiness of a possibly-absent body field (`undefined` is falsy). -/
def optTruthy : Option Value → Bool
  | none => false
  | some v => v.truthy

/-- Truthiness of a possibly-absent string (header / env var). -/
def optStrTruthy : Option String → Bool
  | none => false
  | some s => s ≠ ""

/-- JavaScript strict equality `v === s` against a string constant: true only
when `v` is a string with the same characters. -/
def jsStrictEqStr (v : Value) (s : String) : Bool :=
  match v with
  | .vstr t => t == s
  | _ => false

/-- `v === s` where `v` may be `undefined`. -/
def optStrictEqStr (v : Option Value) (s : String) : Bool :=
  match v with
  | some p => jsStrictEqStr p s
  | none => false

/-! ## Strings and numbers as JavaScript treats them -/

/-- `String.prototype.trim` on the character list: drop whitespace from both
ends. -/
def trimL (l : List Char) : List Char :=
  ((l.dropWhile Char.isWhitespace).reverse.dropWhile Char.isWhitespace).reverse

/-- Value of a list of decimal digits, most significant first. -/
def digitsVal (l : List Char) : Nat :=
  l.foldl (fun acc c => acc * 10 + (c.toNat - '0'.toNat)) 0

/-- The longest decimal-digit prefix, or `none` when there is none. -/
def parseDigits (l : List Char) : Option Nat :=
  match l.takeWhile Char.isDigit with
  | [] => none
  | ds => some (digitsVal ds)

/-- JavaScript `parseInt(s)` (base 10): skip leading whitespace, read an
optional sign and then the longest digit prefix; `none` models `NaN`. -/
def jsParseInt (s : String) : Option Int :=
  match s.data.dropWhile Char.isWhitespace with
  | '-' :: rest => (parseDigits rest).map (fun n => -(n : Int))
  | '+' :: rest => (parseDigits rest).map (fun n => (n : Int))
  | l => (parseDigits l).map (fun n => (n : Int))

/-- JavaScript `BigInt(s)`: trim whitespace; the empty string is `0`; an
optional sign must be followed by digits only; anything else throws
(modelled as `none`). -/
def jsBigInt (s : String) : Option Int :=
  match trimL s.data with
  | [] => some 0
  | c :: rest =>
      if c = '-' then
        if !rest.isEmpty && rest.all Char.isDigit then some (-(digitsVal rest : Int)) else none
      else if c = '+' then
        if !rest.isEmpty && rest.all Char.isDigit then some ((digitsVal rest : Int)) else none
      else if (c :: rest).all Char.isDigit then some ((digitsVal (c :: rest) : Int)) else none

/-- BigInt `>>` is an arithmetic shift, i.e. floor division by a power of
two. -/
def bigIntShiftRight (n : Int) (k : Nat) : Int :=
  Int.fdiv n (2 ^ k)

/-- A JavaScript number that is either an integer or `NaN`, as it is rendered
into a template string. -/
inductive JsNum where
  | int (n : Int)
  | nan

/-- How a template literal renders the number. -/
def JsNum.render : JsNum → String
  | .int n => toString n
  | .nan => "NaN"

/-! ## Discord data and avatar resolution -/

/-- The upstream `user` object of a guild-member response. -/
structure User where
  id : String
  username : String
  global_name : Option String
  discriminator : String
  avatar : Option String

/-- The upstream guild-member object. -/
structure GuildMember where
  user : User
  nick : Option String
  avatar : Option String

/-- The default-avatar index expression
`user.discriminator === '0' ? (BigInt(user.id) >> 22n) % 6n : parseInt(user.discriminator) % 5`.
`%` on BigInt/Number is the truncated remainder, and `parseInt` giving `NaN`
propagates into the rendered string. -/
def defaultAvatarIndex (u : User) : Option JsNum :=
  if u.discriminator = "0" then
    (jsBigInt u.id).map (fun n => JsNum.int (Int.tmod (bigIntShiftRight n 22) 6))
  else
    some (match jsParseInt u.discriminator with
          | some n => JsNum.int (Int.tmod n 5)
          | none => JsNum.nan)

/-- The avatar-URL resolution of `GET /api/owner` (server avatar > user
avatar > default); `none` models the `TypeError` thrown by `BigInt` on a
non-numeric id, which the handler's `catch` turns into a 500. -/
def avatarUrl (guildId : String) (m : GuildMember) : Option String :=
  if optStrTruthy m.avatar then
    some ("https://cdn.discordapp.com/guilds/" ++ guildId ++ "/users/" ++ m.user.id
      ++ "/avatars/" ++ m.avatar.getD "" ++ ".png?size=256")
  else if optStrTruthy m.user.avatar then
    some ("https://cdn.discordapp.com/avatars/" ++ m.user.id ++ "/"
      ++ m.user.avatar.getD "" ++ ".png?size=256")
  else
    (defaultAvatarIndex m.user).map
      (fun ix => "https://cdn.discordapp.com/embed/avatars/" ++ ix.render ++ ".png")

/-! ## Message normalization (`GET /api/messages`) -/

/-- The author fields the mapper copies. -/
structure MsgAuthor where
  id : String
  username : String
  global_name : Option String
  avatar : Option String
  discriminator : String

/-- The guild-member override attached to a message. -/
structure MemberInfo where
  nick : Option String
  avatar : Option String

/-- An upstream reaction object; upstream also carries burst/detail fields the
mapper drops. -/
structure UpReaction where
  emoji : Value
  count : Int
  me : Bool
  me_burst : Bool
  count_details : Value

/-- The normalized reaction `{ emoji, count, me }`. -/
structure NormReaction where
  emoji : Value
  count : Int
  me : Bool

/-- An upstream message; `referenced_message` nests a full message, so this is
an inductive type. -/
inductive UpMessage where
  | mk (id content timestamp : String)
       (author : MsgAuthor)
       (member : Option MemberInfo)
       (attachments sticker_items mentions : Option (List Value))
       (reactions : Option (List UpReaction))
       (referenced_message : Option UpMessage)

def UpMessage.id : UpMessage → String
  | .mk i _ _ _ _ _ _ _ _ _ => i

def UpMessage.content : UpMessage → String
  | .mk _ c _ _ _ _ _ _ _ _ => c

def UpMessage.timestamp : UpMessage → String
  | .mk _ _ t _ _ _ _ _ _ _ => t

def UpMessage.author : UpMessage → MsgAuthor
  | .mk _ _ _ a _ _ _ _ _ _ => a

def UpMessage.member : UpMessage → Option MemberInfo
  | .mk _ _ _ _ m _ _ _ _ _ => m

def UpMessage.attachments : UpMessage → Option (List Value)
  | .mk _ _ _ _ _ att _ _ _ _ => att

def UpMessage.sticker_items : UpMessage → Option (List Value)
  | .mk _ _ _ _ _ _ st _ _ _ => st

def UpMessage.mentions : UpMessage → Option (List Value)
  | .mk _ _ _ _ _ _ _ men _ _ => men

def UpMessage.reactions : UpMessage → Option (List UpReaction)
  | .mk _ _ _ _ _ _ _ _ rea _ => rea

def UpMessage.referenced_message : UpMessage → Option UpMessage
  | .mk _ _ _ _ _ _ _ _ _ ref => ref

/-- Replace the nested referenced message (used to state that normalization
ignores it). -/
def UpMessage.setReferenced : UpMessage → Option UpMessage → UpMessage
  | .mk i c t a mem att st men rea _, x => .mk i c t a mem att st men rea x

/-- The one-level projection of a referenced (replied-to) message: its own
`referenced_message` is not inspected. -/
structure NormRef where
  id : String
  author : MsgAuthor
  content : String
  mentions : List Value

/-- The normalized message shape produced by the mapper. -/
structure NormMessage where
  id : String
  content : String
  timestamp : String
  author : MsgAuthor
  member : Option MemberInfo
  attachments : List Value
  sticker_items : List Value
  mentions : List Value
  reactions : List NormReaction
  referenced_message : Option NormRef

/-- `r => ({ emoji: r.emoji, count: r.count, me: r.me })`. -/
def normReaction (r : UpReaction) : NormReaction :=
  ⟨r.emoji, r.count, r.me⟩

/-- The projection applied to `msg.referenced_message` (one level deep). -/
def normRef (r : UpMessage) : NormRef :=
  ⟨r.id,
   ⟨r.author.id, r.author.username, r.author.global_name, r.author.avatar,
    r.author.discriminator⟩,
   r.content,
   r.mentions.getD []⟩

/-- The `response.data.map(msg => ...)` body. -/
def normalizeMessage (msg : UpMessage) : NormMessage :=
  { id := msg.id
    content := msg.content
    timestamp := msg.timestamp
    author := ⟨msg.author.id, msg.author.username, msg.author.global_name,
               msg.author.avatar, msg.author.discriminator⟩
    member := msg.member.map (fun m => ⟨m.nick, m.avatar⟩)
    attachments := msg.attachments.getD []
    sticker_items := msg.sticker_items.getD []
    mentions := msg.mentions.getD []
    reactions :=
      match msg.reactions with
      | some rs => rs.map normReaction
      | none => []
    referenced_message := msg.referenced_message.map normRef }

/-- The `/api/messages` response body: the mapped list, reversed
(`res.json(messages.reverse())`). -/
def messagesResponse (msgs : List UpMessage) : List NormMessage :=
  (msgs.map normalizeMessage).reverse

/-! ## Settings store

`Setting` is the mongoose model `{ key: String (unique), value: Mixed }`.
The collection is an association list; `findOne` returns the first document
matching the key and `findOneAndUpdate` with `upsert: true` overwrites the
value of the first matching document or inserts a new one. -/

/-- One document of the `settings` collection. -/
structure Setting where
  key : String
  value : Value

/-- The settings collection. -/
abbrev Store := List Setting

/-- `Setting.findOne({ key: k })`. -/
def findOne (st : Store) (k : String) : Option Setting :=
  st.find? (fun s => s.key == k)

/-- `Setting.findOneAndUpdate({ key: k }, { value: v }, { upsert: true })`:
overwrite the matching document's value, or insert the document. -/
def findOneAndUpdate (st : Store) (k : String) (v : Value) : Store :=
  match st with
  | [] => [⟨k, v⟩]
  | s :: rest => if s.key == k then ⟨k, v⟩ :: rest else s :: findOneAndUpdate rest k v

/-! ## Admin gate

`ADMIN_PASSWORD = process.env.ADMIN_PASSWORD || "admin"`; `||` falls back on
the falsy values `undefined` and `""`. -/

/-- The configured admin secret derived from the environment variable. -/
def adminPasswordOf (env : Option String) : String :=
  match env with
  | some s => if s = "" then "admin" else s
  | none => "admin"

/-- `POST /api/verify`: `if (password && password === ADMIN_PASSWORD)` then
`{success:true}` (200) else 401. -/
def verifyHandler (admin : String) (password : Option Value) : Nat × Bool :=
  if optTruthy password && optStrictEqStr password admin then (200, true)
  else (401, false)

/-- The auth guard of the mutating endpoints:
`if (!authHeader || authHeader !== ADMIN_PASSWORD) return 401`.  `true` means
the request is rejected. -/
def authRejects (admin : String) (authHeader : Option String) : Bool :=
  !optStrTruthy authHeader || !(authHeader == some admin)

/-! ## Schedule and profile endpoints

`mongoose.connection.readyState === 1` means connected; the handlers take the
ready state, the current store, and a flag modelling whether the awaited
database call throws (which lands in the `catch` block). -/

/-- The fallback schedule image URL embedded in the source. -/
def DEFAULT_SCHEDULE_URL : String :=
  "https://cdn.discordapp.com/attachments/1338254150479118347/1439859590152978443/3_am_17.png?ex=6921fbfd&is=6920aa7d&hm=926ad591d323ccc29cd9f7dc2e256de99d8f5dcc292aa3a883f565455844c977&"

/-- `GET /api/schedule`: when connected, look up `schedule_url`; if the
document exists and its value is truthy return it, otherwise (absent record,
falsy value, not connected, or a thrown lookup caught by the handler) respond
`200` with the default URL.  The handler never produces an error status. -/
def getSchedule (readyState : Nat) (st : Store) (lookupThrows : Bool) : Nat × Value :=
  if readyState = 1 then
    if lookupThrows then (200, Value.vstr DEFAULT_SCHEDULE_URL)
    else
      match findOne st "schedule_url" with
      | some setting =>
          if setting.value.truthy then (200, setting.value)
          else (200, Value.vstr DEFAULT_SCHEDULE_URL)
      | none => (200, Value.vstr DEFAULT_SCHEDULE_URL)
  else (200, Value.vstr DEFAULT_SCHEDULE_URL)

/-- `POST /api/schedule`: 401 on bad auth, 400 on missing/falsy `url`, 503 when
not connected, otherwise upsert `schedule_url`.  Returns the status code and
the resulting store. -/
def postSchedule (admin : String) (readyState : Nat) (st : Store)
    (authHeader : Option String) (url : Option Value) : Nat × Store :=
  if authRejects admin authHeader then (401, st)
  else
    match url with
    | none => (400, st)
    | some u =>
        if !u.truthy then (400, st)
        else if readyState ≠ 1 then (503, st)
        else (200, findOneAndUpdate st "schedule_url" u)

/-- `POST /api/profile`: 401 on bad auth, 400 when `type` or `data` is absent
or falsy; otherwise the key is `type === 'about' ? 'profile_about' :
'profile_credits'` and the data is upserted there (a throwing update is caught
and answered 500; we model it as not mutating). -/
def postProfile (admin : String) (st : Store) (authHeader : Option String)
    (ty data : Option Value) (updateThrows : Bool) : Nat × Store :=
  if authRejects admin authHeader then (401, st)
  else
    match ty, data with
    | some t, some d =>
        if !t.truthy || !d.truthy then (400, st)
        else
          if updateThrows then (500, st)
          else (200, findOneAndUpdate st
            (if jsStrictEqStr t "about" then "profile_about" else "profile_credits") d)
    | none, _ => (400, st)
    | some _, none => (400, st)

/-! ## Bot-token sanitization -/

/-- The sanitization performed on `process.env.DISCORD_BOT_TOKEN` as a list
transformation: trim, then strip a leading `"Bot "` and trim again. -/
def sanitizeList (l : List Char) : List Char :=
  if "Bot ".data.isPrefixOf (trimL l) then trimL ((trimL l).drop 4) else trimL l

/-- `DISCORD_BOT_TOKEN` after the sanitization block (`undefined` becomes
`""`). -/
def sanitizeToken (env : Option String) : String :=
  match env with
  | none => ""
  | some s => String.mk (sanitizeList s.data)

/-- The outgoing authorization header value. -/
def outgoingAuthHeader (token : String) : String :=
  "Bot " ++ token

/-! ## Theorems -/

theorem adminPasswordOf_ne_empty (env : Option String) : adminPasswordOf env ≠ "" := by
  cases env with
  | none => simp [adminPasswordOf]
  | some s =>
    simp only [adminPasswordOf]
    split <;> simp_all

theorem findOne_findOneAndUpdate (st : Store) (k : String) (v : Value) :
    findOne (findOneAndUpdate st k v) k = some ⟨k, v⟩ := by
  induction st with
  | nil => simp [findOne, findOneAndUpdate, List.find?]
  | cons s rest ih =>
    by_cases h : s.key = k
    · simp [findOneAndUpdate, findOne, List.find?, h]
    · have hb : (s.key == k) = false := by simp [h]
      simp only [findOneAndUpdate, hb, Bool.false_eq_true, if_false]
      simpa [findOne, List.find?, hb] using ih

/-- C4: upserting a value under a key and then reading that key back returns
exactly the value just written, for every prior store contents (creation on
first upsert, full overwrite and last-write-wins on later ones). -/
theorem c4_upsert_then_get (st : Store) (k : String) (v : Value) :
    findOne (findOneAndUpdate st k v) k = some ⟨k, v⟩ :=
  findOne_findOneAndUpdate st k v

theorem c4_upsert_then_get_example :
    findOne (findOneAndUpdate [⟨"schedule_url", Value.vstr "old"⟩] "schedule_url" (Value.vstr "http new")) "schedule_url"
      = some ⟨"schedule_url", Value.vstr "http new"⟩ :=
  c4_upsert_then_get [⟨"schedule_url", Value.vstr "old"⟩] "schedule_url" (Value.vstr "http new")

theorem authRejects_false_iff {admin : String} (hne : admin ≠ "") (h : Option String) :
    authRejects admin h = false ↔ h = some admin := by
  cases h with
  | none => simp [authRejects, optStrTruthy]
  | some s =>
    constructor
    · intro hr
      simp only [authRejects, optStrTruthy, Bool.or_eq_false_iff, Bool.not_eq_false',
        Bool.not_eq_false, beq_iff_eq, Option.some.injEq, decide_eq_false_iff_not] at hr ⊢
      exact hr.2
    · intro hs
      have hs' : s = admin := by simpa using hs
      subst hs'
      simp [authRejects, optStrTruthy, hne]

theorem authRejects_true_of_ne {admin : String} (hne : admin ≠ "") {h : Option String}
    (hno : h ≠ some admin) : authRejects admin h = true := by
  cases hr : authRejects admin h with
  | false => exact absurd ((authRejects_false_iff hne h).mp hr) hno
  | true => rfl

/-- C5: the admin gate authorizes a supplied secret iff it is exactly
string-equal to the configured secret: `POST /api/verify` answers
`(200, success)` precisely when the body password is the admin string, answers
`(401, no success)` otherwise, and the mutating endpoints' authorization-header
guard passes precisely under the same string equality. -/
theorem c5_admin_gate_iff (env : Option String) (password : Option Value)
    (authHeader : Option String) :
    (verifyHandler (adminPasswordOf env) password = (200, true) ↔
       password = some (Value.vstr (adminPasswordOf env)))
  ∧ (password ≠ some (Value.vstr (adminPasswordOf env)) →
       verifyHandler (adminPasswordOf env) password = (401, false))
  ∧ (authRejects (adminPasswordOf env) authHeader = false ↔
       authHeader = some (adminPasswordOf env)) := by
  have hne := adminPasswordOf_ne_empty env
  refine ⟨?_, ?_, ?_⟩
  · constructor
    · intro h
      by_cases hc : (optTruthy password && optStrictEqStr password (adminPasswordOf env)) = true
      · cases password with
        | none => simp [optStrictEqStr] at hc
        | some p =>
          cases p with
          | vstr t =>
            simp only [optStrictEqStr, jsStrictEqStr, Bool.and_eq_true, beq_iff_eq] at hc
            simp [hc.2]
          | vnum n => simp [optStrictEqStr, jsStrictEqStr] at hc
          | vbool b => simp [optStrictEqStr, jsStrictEqStr] at hc
          | vnull => simp [optStrictEqStr, jsStrictEqStr] at hc
          | varr l => simp [optStrictEqStr, jsStrictEqStr] at hc
      · simp [verifyHandler, hc] at h
    · intro h
      subst h
      simp [verifyHandler, optTruthy, optStrictEqStr, jsStrictEqStr, Value.truthy, hne]
  · intro h
    have hc : (optTruthy password && optStrictEqStr password (adminPasswordOf env)) = false := by
      cases password with
      | none => simp [optStrictEqStr]
      | some p =>
        cases p with
        | vstr t =>
          have ht : t ≠ adminPasswordOf env := fun he => h (by simp [he])
          simp [optStrictEqStr, jsStrictEqStr, ht]
        | vnum n => simp [optStrictEqStr, jsStrictEqStr]
        | vbool b => simp [optStrictEqStr, jsStrictEqStr]
        | vnull => simp [optStrictEqStr, jsStrictEqStr]
        | varr l => simp [optStrictEqStr, jsStrictEqStr]
    simp [verifyHandler, hc]
  · cases authHeader with
    | none => simp [authRejects, optStrTruthy]
    | some s =>
      constructor
      · intro h
        simp only [authRejects, optStrTruthy, Bool.or_eq_false_iff, Bool.not_eq_false',
          Bool.not_eq_false, beq_iff_eq, Option.some.injEq, decide_eq_false_iff_not] at h ⊢
        exact h.2
      · intro h
        have hs : s = adminPasswordOf env := by simpa using h
        subst hs
        simp [authRejects, optStrTruthy, hne]

theorem c5_admin_gate_iff_witness :
    verifyHandler (adminPasswordOf none) (some (Value.vstr "admin")) = (200, true)
  ∧ verifyHandler (adminPasswordOf none) (some (Value.vstr "wrong")) = (401, false)
  ∧ authRejects (adminPasswordOf none) (some "admin") = false := by
  refine ⟨?_, ?_, ?_⟩
  · exact (c5_admin_gate_iff none (some (Value.vstr "admin")) (some "admin")).1.mpr (by simp [adminPasswordOf])
  · exact (c5_admin_gate_iff none (some (Value.vstr "wrong")) (some "admin")).2.1 (by simp [adminPasswordOf])
  · exact (c5_admin_gate_iff none (some (Value.vstr "admin")) (some "admin")).2.2.mpr (by simp [adminPasswordOf])

/-- C6: `POST /api/schedule` answers 401 when the authorization header is
absent or differs from the admin secret, 400 when the secret matches but the
`url` field is missing, and 503 when the secret matches, the url is supplied
and truthy, but the store is not connected — and in all three cases the
settings store is left unchanged. -/
theorem c6_post_schedule_guards (env : Option String) (readyState : Nat) (st : Store)
    (authHeader : Option String) (url : Option Value) :
    ((authHeader = none ∨ authHeader ≠ some (adminPasswordOf env)) →
       postSchedule (adminPasswordOf env) readyState st authHeader url = (401, st))
  ∧ (authHeader = some (adminPasswordOf env) → url = none →
       postSchedule (adminPasswordOf env) readyState st authHeader url = (400, st))
  ∧ (authHeader = some (adminPasswordOf env) → readyState ≠ 1 →
       ∀ u : Value, url = some u → u.truthy = true →
       postSchedule (adminPasswordOf env) readyState st authHeader url = (503, st)) := by
  have hne := adminPasswordOf_ne_empty env
  refine ⟨?_, ?_, ?_⟩
  · intro hbad
    have hno : authHeader ≠ some (adminPasswordOf env) := by
      rcases hbad with h | h
      · subst h; simp
      · exact h
    simp [postSchedule, authRejects_true_of_ne hne hno]
  · rintro rfl rfl
    simp [postSchedule, (authRejects_false_iff hne _).mpr rfl]
  · rintro rfl hrs u rfl htru
    simp [postSchedule, (authRejects_false_iff hne _).mpr rfl, htru, hrs]

theorem c6_post_schedule_guards_witness :
    postSchedule (adminPasswordOf none) 1 [] (some "wrong") (some (Value.vstr "http x")) = (401, [])
  ∧ postSchedule (adminPasswordOf none) 1 [] (some "admin") none = (400, [])
  ∧ postSchedule (adminPasswordOf none) 0 [] (some "admin") (some (Value.vstr "http x")) = (503, []) := by
  refine ⟨?_, ?_, ?_⟩
  · exact (c6_post_schedule_guards none 1 [] (some "wrong") (some (Value.vstr "http x"))).1
      (Or.inr (by simp [adminPasswordOf]))
  · exact (c6_post_schedule_guards none 1 [] (some "admin") none).2.1 (by simp [adminPasswordOf]) rfl
  · exact (c6_post_schedule_guards none 0 [] (some "admin") (some (Value.vstr "http x"))).2.2
      (by simp [adminPasswordOf]) (by decide) (Value.vstr "http x") rfl (by decide)

/-- C7: `GET /api/schedule` responds with the fixed embedded default URL
whenever the schedule key was never written, the store is not connected, or
the lookup throws; and on every input this read path answers status 200,
never an error. -/
theorem c7_get_schedule_fallback (readyState : Nat) (st : Store) (lookupThrows : Bool) :
    (findOne st "schedule_url" = none →
       getSchedule readyState st lookupThrows = (200, Value.vstr DEFAULT_SCHEDULE_URL))
  ∧ (readyState ≠ 1 →
       getSchedule readyState st lookupThrows = (200, Value.vstr DEFAULT_SCHEDULE_URL))
  ∧ (lookupThrows = true →
       getSchedule readyState st lookupThrows = (200, Value.vstr DEFAULT_SCHEDULE_URL))
  ∧ (getSchedule readyState st lookupThrows).1 = 200 := by
  refine ⟨?_, ?_, ?_, ?_⟩
  · intro hnone
    by_cases hrs : readyState = 1
    · subst hrs
      cases lookupThrows with
      | false => simp [getSchedule, hnone]
      | true => simp [getSchedule]
    · simp [getSchedule, hrs]
  · intro hrs
    simp [getSchedule, hrs]
  · rintro rfl
    by_cases hrs : readyState = 1
    · subst hrs; simp [getSchedule]
    · simp [getSchedule, hrs]
  · by_cases hrs : readyState = 1
    · subst hrs
      cases lookupThrows with
      | true => simp [getSchedule]
      | false =>
        cases hf : findOne st "schedule_url" with
        | none => simp [getSchedule, hf]
        | some setting =>
          by_cases hv : setting.value.truthy <;> simp [getSchedule, hf, hv]
    · simp [getSchedule, hrs]

theorem c7_get_schedule_fallback_witness :
    getSchedule 1 [] false = (200, Value.vstr DEFAULT_SCHEDULE_URL)
  ∧ getSchedule 0 [⟨"schedule_url", Value.vstr "stored"⟩] false
      = (200, Value.vstr DEFAULT_SCHEDULE_URL)
  ∧ getSchedule 1 [⟨"schedule_url", Value.vstr "stored"⟩] true
      = (200, Value.vstr DEFAULT_SCHEDULE_URL) := by
  refine ⟨?_, ?_, ?_⟩
  · exact (c7_get_schedule_fallback 1 [] false).1 rfl
  · exact (c7_get_schedule_fallback 0 [⟨"schedule_url", Value.vstr "stored"⟩] false).2.1 (by decide)
  · exact (c7_get_schedule_fallback 1 [⟨"schedule_url", Value.vstr "stored"⟩] true).2.2.1 rfl

/-- C9: an authorized `POST /api/profile` with truthy `type` and `data` is
never answered 400; it upserts under `profile_about` exactly when
`type === 'about'`, and under `profile_credits` for every other type value —
unrecognized types silently overwrite the credits content. -/
theorem c9_profile_key_selection (env : Option String) (st : Store) (t d : Value)
    (ht : t.truthy = true) (hd : d.truthy = true) :
    (postProfile (adminPasswordOf env) st (some (adminPasswordOf env)) (some t) (some d) false).1 = 200
  ∧ (postProfile (adminPasswordOf env) st (some (adminPasswordOf env)) (some t) (some d) false).2
      = findOneAndUpdate st
          (if jsStrictEqStr t "about" then "profile_about" else "profile_credits") d
  ∧ (t = Value.vstr "about" →
       (postProfile (adminPasswordOf env) st (some (adminPasswordOf env)) (some t) (some d) false).2
         = findOneAndUpdate st "profile_about" d)
  ∧ (jsStrictEqStr t "about" = false →
       (postProfile (adminPasswordOf env) st (some (adminPasswordOf env)) (some t) (some d) false).2
         = findOneAndUpdate st "profile_credits" d) := by
  have hne := adminPasswordOf_ne_empty env
  have hok := (authRejects_false_iff hne (some (adminPasswordOf env))).mpr rfl
  refine ⟨?_, ?_, ?_, ?_⟩
  · simp [postProfile, hok, ht, hd]
  · simp [postProfile, hok, ht, hd]
  · rintro rfl
    simp [postProfile, hok, ht, hd, jsStrictEqStr]
  · intro hno
    simp [postProfile, hok, ht, hd, hno]

theorem c9_profile_key_selection_witness :
    (postProfile (adminPasswordOf none) [] (some "admin")
        (some (Value.vstr "unexpected")) (some (Value.vstr "blocks")) false)
      = (200, [⟨"profile_credits", Value.vstr "blocks"⟩]) := by
  have h := c9_profile_key_selection none [] (Value.vstr "unexpected") (Value.vstr "blocks")
    (by decide) (by decide)
  have h1 : (postProfile (adminPasswordOf none) [] (some (adminPasswordOf none))
      (some (Value.vstr "unexpected")) (some (Value.vstr "blocks")) false).1 = 200 := h.1
  have h2 := h.2.2.2 (by decide)
  have hadmin : adminPasswordOf none = "admin" := rfl
  rw [hadmin] at h1 h2
  have : findOneAndUpdate ([] : Store) "profile_credits" (Value.vstr "blocks")
      = [⟨"profile_credits", Value.vstr "blocks"⟩] := rfl
  rw [this] at h2
  exact Prod.ext h1 h2

/-- C10: when a record exists under `schedule_url` but its stored value is
falsy (for example the empty string), `GET /api/schedule` returns the fixed
default URL rather than the stored value, because the handler requires both
the record and its value to be truthy. -/
theorem c10_falsy_stored_value (st : Store) (s : Setting)
    (hfind : findOne st "schedule_url" = some s) (hfalsy : s.value.truthy = false) :
    getSchedule 1 st false = (200, Value.vstr DEFAULT_SCHEDULE_URL) := by
  simp [getSchedule, hfind, hfalsy]

theorem c10_falsy_stored_value_witness :
    getSchedule 1 [⟨"schedule_url", Value.vstr ""⟩] false
      = (200, Value.vstr DEFAULT_SCHEDULE_URL) :=
  c10_falsy_stored_value [⟨"schedule_url", Value.vstr ""⟩] ⟨"schedule_url", Value.vstr ""⟩
    rfl (by decide)

/-- C2: normalization preserves id, content, timestamp, the author fields and
the member override field-by-field; substitutes empty lists for absent
attachments, sticker items, mentions and reactions; maps each reaction to its
`{emoji, count, me}` triple; projects a referenced message exactly one level
deep (the nested referenced message is ignored); and the output list has the
length of the input list. -/
theorem c2_normalization_fields :
    (∀ msg : UpMessage,
      (normalizeMessage msg).id = msg.id
    ∧ (normalizeMessage msg).content = msg.content
    ∧ (normalizeMessage msg).timestamp = msg.timestamp
    ∧ (normalizeMessage msg).author.id = msg.author.id
    ∧ (normalizeMessage msg).author.username = msg.author.username
    ∧ (normalizeMessage msg).author.global_name = msg.author.global_name
    ∧ (normalizeMessage msg).author.avatar = msg.author.avatar
    ∧ (normalizeMessage msg).author.discriminator = msg.author.discriminator
    ∧ (msg.member = none → (normalizeMessage msg).member = none)
    ∧ (∀ mi : MemberInfo, msg.member = some mi →
         (normalizeMessage msg).member = some ⟨mi.nick, mi.avatar⟩)
    ∧ (msg.attachments = none → (normalizeMessage msg).attachments = [])
    ∧ (∀ l, msg.attachments = some l → (normalizeMessage msg).attachments = l)
    ∧ (msg.sticker_items = none → (normalizeMessage msg).sticker_items = [])
    ∧ (∀ l, msg.sticker_items = some l → (normalizeMessage msg).sticker_items = l)
    ∧ (msg.mentions = none → (normalizeMessage msg).mentions = [])
    ∧ (∀ l, msg.mentions = some l → (normalizeMessage msg).mentions = l)
    ∧ (msg.reactions = none → (normalizeMessage msg).reactions = [])
    ∧ (∀ rs, msg.reactions = some rs →
         (normalizeMessage msg).reactions
           = rs.map (fun r => (⟨r.emoji, r.count, r.me⟩ : NormReaction)))
    ∧ (msg.referenced_message = none → (normalizeMessage msg).referenced_message = none)
    ∧ (∀ r : UpMessage, msg.referenced_message = some r →
         (normalizeMessage msg).referenced_message
             = some ⟨r.id,
                     ⟨r.author.id, r.author.username, r.author.global_name,
                      r.author.avatar, r.author.discriminator⟩,
                     r.content, r.mentions.getD []⟩
       ∧ ∀ x : Option UpMessage, normRef (r.setReferenced x) = normRef r))
  ∧ (∀ msgs : List UpMessage, (messagesResponse msgs).length = msgs.length) := by
  constructor
  · intro msg
    cases msg with
    | mk i c t a mem att st men rea ref =>
      refine ⟨rfl, rfl, rfl, rfl, rfl, rfl, rfl, rfl, ?_, ?_, ?_, ?_, ?_, ?_, ?_, ?_, ?_, ?_, ?_, ?_⟩
      · rintro h
        simp only [UpMessage.member] at h
        simp [normalizeMessage, UpMessage.member, h]
      · rintro mi h
        simp only [UpMessage.member] at h
        simp [normalizeMessage, UpMessage.member, h]
      · rintro h
        simp only [UpMessage.attachments] at h
        simp [normalizeMessage, UpMessage.attachments, h]
      · rintro l h
        simp only [UpMessage.attachments] at h
        simp [normalizeMessage, UpMessage.attachments, h]
      · rintro h
        simp only [UpMessage.sticker_items] at h
        simp [normalizeMessage, UpMessage.sticker_items, h]
      · rintro l h
        simp only [UpMessage.sticker_items] at h
        simp [normalizeMessage, UpMessage.sticker_items, h]
      · rintro h
        simp only [UpMessage.mentions] at h
        simp [normalizeMessage, UpMessage.mentions, h]
      · rintro l h
        simp only [UpMessage.mentions] at h
        simp [normalizeMessage, UpMessage.mentions, h]
      · rintro h
        simp only [UpMessage.reactions] at h
        simp [normalizeMessage, UpMessage.reactions, h]
      · rintro rs h
        simp only [UpMessage.reactions] at h
        simp [normalizeMessage, UpMessage.reactions, h, normReaction]
      · rintro h
        simp only [UpMessage.referenced_message] at h
        simp [normalizeMessage, UpMessage.referenced_message, h]
      · rintro r h
        simp only [UpMessage.referenced_message] at h
        constructor
        · simp [normalizeMessage, UpMessage.referenced_message, h, normRef]
        · intro x
          cases r with
          | mk ri rc rt ra rmem ratt rst rmen rrea rref => rfl
  · intro msgs
    simp [messagesResponse]

theorem c2_normalization_fields_witness :
    (normalizeMessage
        (.mk "m1" "hi" "t1" ⟨"a1", "alice", none, none, "0001"⟩ none none none none
          (some [⟨Value.vstr "sparkle", 2, true, false, Value.vnull⟩])
          (some (.mk "m0" "orig" "t0" ⟨"b1", "bob", none, none, "0"⟩ none none none none none
            (some (.mk "deep" "nested" "td" ⟨"c1", "carol", none, none, "7"⟩
              none none none none none none)))))).reactions
      = [⟨Value.vstr "sparkle", 2, true⟩]
  ∧ (normalizeMessage
        (.mk "m1" "hi" "t1" ⟨"a1", "alice", none, none, "0001"⟩ none none none none
          (some [⟨Value.vstr "sparkle", 2, true, false, Value.vnull⟩])
          (some (.mk "m0" "orig" "t0" ⟨"b1", "bob", none, none, "0"⟩ none none none none none
            (some (.mk "deep" "nested" "td" ⟨"c1", "carol", none, none, "7"⟩
              none none none none none none)))))).referenced_message
      = some ⟨"m0", ⟨"b1", "bob", none, none, "0"⟩, "orig", []⟩
  ∧ (normalizeMessage
        (.mk "m1" "hi" "t1" ⟨"a1", "alice", none, none, "0001"⟩ none none none none
          (some [⟨Value.vstr "sparkle", 2, true, false, Value.vnull⟩])
          (some (.mk "m0" "orig" "t0" ⟨"b1", "bob", none, none, "0"⟩ none none none none none
            (some (.mk "deep" "nested" "td" ⟨"c1", "carol", none, none, "7"⟩
              none none none none none none)))))).attachments
      = []
  ∧ (messagesResponse
        [.mk "m1" "hi" "t1" ⟨"a1", "alice", none, none, "0001"⟩ none none none none none none,
         .mk "m2" "yo" "t2" ⟨"a2", "ann", none, none, "0002"⟩ none none none none none none]).length
      = 2 := by
  have h := c2_normalization_fields.1
    (.mk "m1" "hi" "t1" ⟨"a1", "alice", none, none, "0001"⟩ none none none none
      (some [⟨Value.vstr "sparkle", 2, true, false, Value.vnull⟩])
      (some (.mk "m0" "orig" "t0" ⟨"b1", "bob", none, none, "0"⟩ none none none none none
        (some (.mk "deep" "nested" "td" ⟨"c1", "carol", none, none, "7"⟩
          none none none none none none)))))
  refine ⟨?_, ?_, ?_, ?_⟩
  · exact h.2.2.2.2.2.2.2.2.2.2.2.2.2.2.2.2.2.1
      [⟨Value.vstr "sparkle", 2, true, false, Value.vnull⟩] rfl
  · exact (h.2.2.2.2.2.2.2.2.2.2.2.2.2.2.2.2.2.2.2
      (.mk "m0" "orig" "t0" ⟨"b1", "bob", none, none, "0"⟩ none none none none none
        (some (.mk "deep" "nested" "td" ⟨"c1", "carol", none, none, "7"⟩
          none none none none none none))) rfl).1
  · exact h.2.2.2.2.2.2.2.2.2.2.1 rfl
  · exact c2_normalization_fields.2 _

/-- C3: the `/api/messages` response is exactly the reverse of the normalized
upstream sequence — elementwise, index `i` of the output is the normalization
of upstream index `length - 1 - i` — and reversing the output twice returns
the output itself. -/
theorem c3_messages_reversed (msgs : List UpMessage) :
    messagesResponse msgs = (msgs.map normalizeMessage).reverse
  ∧ messagesResponse msgs = msgs.reverse.map normalizeMessage
  ∧ (messagesResponse msgs).reverse.reverse = messagesResponse msgs
  ∧ (∀ i, i < msgs.length →
      (messagesResponse msgs)[i]? = (msgs[msgs.length - 1 - i]?).map normalizeMessage) := by
  refine ⟨rfl, ?_, by simp, ?_⟩
  · simp [messagesResponse, List.map_reverse]
  · intro i hi
    have hi' : i < (msgs.map normalizeMessage).length := by simpa using hi
    simp [messagesResponse, List.getElem?_reverse hi']

theorem c3_messages_reversed_witness :
    messagesResponse
        [.mk "new" "n" "t2" ⟨"a1", "alice", none, none, "0001"⟩ none none none none none none,
         .mk "old" "o" "t1" ⟨"a2", "ann", none, none, "0002"⟩ none none none none none none]
      = [normalizeMessage
           (.mk "old" "o" "t1" ⟨"a2", "ann", none, none, "0002"⟩ none none none none none none),
         normalizeMessage
           (.mk "new" "n" "t2" ⟨"a1", "alice", none, none, "0001"⟩ none none none none none none)]
  ∧ (messagesResponse
        [.mk "new" "n" "t2" ⟨"a1", "alice", none, none, "0001"⟩ none none none none none none,
         .mk "old" "o" "t1" ⟨"a2", "ann", none, none, "0002"⟩ none none none none none none])[0]?
      = some (normalizeMessage
          (.mk "old" "o" "t1" ⟨"a2", "ann", none, none, "0002"⟩ none none none none none none)) := by
  constructor
  · exact (c3_messages_reversed
      [.mk "new" "n" "t2" ⟨"a1", "alice", none, none, "0001"⟩ none none none none none none,
       .mk "old" "o" "t1" ⟨"a2", "ann", none, none, "0002"⟩ none none none none none none]).2.1
  · have h := (c3_messages_reversed
      [.mk "new" "n" "t2" ⟨"a1", "alice", none, none, "0001"⟩ none none none none none none,
       .mk "old" "o" "t1" ⟨"a2", "ann", none, none, "0002"⟩ none none none none none none]).2.2.2
      0 (by decide)
    simpa using h

theorem not_ws_of_digit {c : Char} (h : c.isDigit = true) : c.isWhitespace = false := by
  cases hw : c.isWhitespace with
  | false => rfl
  | true =>
    exfalso
    simp only [Char.isWhitespace, Bool.or_eq_true, decide_eq_true_eq] at hw
    rcases hw with ((h1 | h1) | h1) | h1 <;> subst h1 <;> exact absurd h (by decide)

theorem digit_ne_dash {c : Char} (h : c.isDigit = true) : c ≠ '-' :=
  fun he => absurd (he ▸ h) (by decide)

theorem digit_ne_plus {c : Char} (h : c.isDigit = true) : c ≠ '+' :=
  fun he => absurd (he ▸ h) (by decide)

theorem dropWhile_ws_of_digits {l : List Char} (h : l.all Char.isDigit = true) :
    l.dropWhile Char.isWhitespace = l := by
  cases l with
  | nil => rfl
  | cons c t =>
    have hc : c.isDigit = true := by
      simp only [List.all_cons, Bool.and_eq_true] at h
      exact h.1
    exact List.dropWhile_cons_of_neg (by simp [not_ws_of_digit hc])

theorem trimL_of_digits {l : List Char} (h : l.all Char.isDigit = true) : trimL l = l := by
  unfold trimL
  rw [dropWhile_ws_of_digits h, dropWhile_ws_of_digits (by simpa using h),
    List.reverse_reverse]

theorem jsBigInt_of_digits (s : String) (hne : s.data ≠ [])
    (hd : s.data.all Char.isDigit = true) :
    jsBigInt s = some ((digitsVal s.data : Int)) := by
  unfold jsBigInt
  rw [trimL_of_digits hd]
  cases hl : s.data with
  | nil => exact absurd hl hne
  | cons c t =>
    rw [hl] at hd
    have hall := hd
    simp only [List.all_cons, Bool.and_eq_true] at hd
    simp [digit_ne_dash hd.1, digit_ne_plus hd.1, hall]

theorem bigIntShiftRight_natCast (d : Nat) :
    bigIntShiftRight (d : Int) 22 = ((d >>> 22 : Nat) : Int) := by
  unfold bigIntShiftRight
  have h2 : ((2 ^ 22 : Nat) : Int) = (2 : Int) ^ 22 := by norm_cast
  rw [Nat.shiftRight_eq_div_pow, ← h2]
  exact (Int.ofNat_fdiv d (2 ^ 22)).symm

theorem tmod_natCast (a b : Nat) :
    Int.tmod (a : Int) (b : Int) = ((a % b : Nat) : Int) :=
  (Int.ofNat_tmod a b).symm

theorem render_natCast (k : Nat) : JsNum.render (JsNum.int (k : Int)) = toString k := rfl

theorem defaultAvatarIndex_new_style (u : User) (h0 : u.discriminator = "0")
    (hne : u.id.data ≠ []) (hd : u.id.data.all Char.isDigit = true) :
    defaultAvatarIndex u
      = some (JsNum.int (((digitsVal u.id.data >>> 22) % 6 : Nat) : Int)) := by
  unfold defaultAvatarIndex
  rw [if_pos h0, jsBigInt_of_digits u.id hne hd]
  have hcast : ((6 : Nat) : Int) = (6 : Int) := by norm_cast
  rw [Option.map_some', bigIntShiftRight_natCast, ← hcast, tmod_natCast]

theorem defaultAvatarIndex_legacy (u : User) (h0 : u.discriminator ≠ "0")
    (n : Int) (hp : jsParseInt u.discriminator = some n) :
    defaultAvatarIndex u = some (JsNum.int (Int.tmod n 5)) := by
  unfold defaultAvatarIndex
  rw [if_neg h0, hp]

/-- C1: avatar resolution is a pure and total function of the guild id and
member: exactly one of the three branches fires — the guild-scoped CDN path
when the member has a guild avatar hash, else the global CDN path when the
user has a global avatar hash, else the embed default path whose index is
`(id >> 22) mod 6` for discriminator `"0"` and `parseInt(discriminator) mod 5`
for any other discriminator string parseable as a (nonnegative) integer. -/
theorem c1_avatar_resolution (guildId : String) (m : GuildMember) :
    ((optStrTruthy m.avatar = true) ∨
     (optStrTruthy m.avatar = false ∧ optStrTruthy m.user.avatar = true) ∨
     (optStrTruthy m.avatar = false ∧ optStrTruthy m.user.avatar = false))
  ∧ (optStrTruthy m.avatar = true →
       avatarUrl guildId m = some ("https://cdn.discordapp.com/guilds/" ++ guildId
         ++ "/users/" ++ m.user.id ++ "/avatars/" ++ m.avatar.getD "" ++ ".png?size=256"))
  ∧ (optStrTruthy m.avatar = false → optStrTruthy m.user.avatar = true →
       avatarUrl guildId m = some ("https://cdn.discordapp.com/avatars/" ++ m.user.id
         ++ "/" ++ m.user.avatar.getD "" ++ ".png?size=256"))
  ∧ (optStrTruthy m.avatar = false → optStrTruthy m.user.avatar = false →
       m.user.discriminator = "0" → m.user.id.data ≠ [] →
       m.user.id.data.all Char.isDigit = true →
       avatarUrl guildId m = some ("https://cdn.discordapp.com/embed/avatars/"
         ++ toString ((digitsVal m.user.id.data >>> 22) % 6) ++ ".png"))
  ∧ (optStrTruthy m.avatar = false → optStrTruthy m.user.avatar = false →
       m.user.discriminator ≠ "0" →
       ∀ n : Int, jsParseInt m.user.discriminator = some n → 0 ≤ n →
       avatarUrl guildId m = some ("https://cdn.discordapp.com/embed/avatars/"
         ++ toString (n % 5) ++ ".png")) := by
  refine ⟨?_, ?_, ?_, ?_, ?_⟩
  · cases h1 : optStrTruthy m.avatar with
    | true => exact Or.inl rfl
    | false =>
      cases h2 : optStrTruthy m.user.avatar with
      | true => exact Or.inr (Or.inl ⟨rfl, rfl⟩)
      | false => exact Or.inr (Or.inr ⟨rfl, rfl⟩)
  · intro h1
    simp [avatarUrl, h1]
  · intro h1 h2
    simp [avatarUrl, h1, h2]
  · intro h1 h2 h0 hne hd
    rw [avatarUrl, if_neg (by simp [h1]), if_neg (by simp [h2]),
      defaultAvatarIndex_new_style m.user h0 hne hd, Option.map_some', render_natCast]
  · intro h1 h2 h0 n hp hn
    rw [avatarUrl, if_neg (by simp [h1]), if_neg (by simp [h2]),
      defaultAvatarIndex_legacy m.user h0 n hp, Option.map_some',
      Int.tmod_eq_emod hn (by decide)]
    rfl

theorem c1_avatar_resolution_witness :
    avatarUrl "1336782145833668729"
        ⟨⟨"433262414759198720", "urnisa", none, "0", none⟩, none, none⟩
      = some "https://cdn.discordapp.com/embed/avatars/5.png"
  ∧ avatarUrl "1336782145833668729"
        ⟨⟨"433262414759198720", "urnisa", none, "1234", none⟩, none, none⟩
      = some "https://cdn.discordapp.com/embed/avatars/4.png"
  ∧ avatarUrl "1336782145833668729"
        ⟨⟨"433262414759198720", "urnisa", none, "0", none⟩, none, some "hashA"⟩
      = some ("https://cdn.discordapp.com/guilds/1336782145833668729/users/433262414759198720/avatars/hashA.png?size=256") := by
  refine ⟨?_, ?_, ?_⟩
  · have h := (c1_avatar_resolution "1336782145833668729"
      ⟨⟨"433262414759198720", "urnisa", none, "0", none⟩, none, none⟩).2.2.2.1
      rfl rfl rfl (by decide) (by decide)
    exact h.trans (by decide)
  · have h := (c1_avatar_resolution "1336782145833668729"
      ⟨⟨"433262414759198720", "urnisa", none, "1234", none⟩, none, none⟩).2.2.2.2
      rfl rfl (by decide) 1234 (by decide) (by decide)
    exact h.trans (by decide)
  · exact (c1_avatar_resolution "1336782145833668729"
      ⟨⟨"433262414759198720", "urnisa", none, "0", none⟩, none, some "hashA"⟩).2.1 rfl

theorem dropWhile_ws_append {ws l : List Char} (h : ws.all Char.isWhitespace = true) :
    (ws ++ l).dropWhile Char.isWhitespace = l.dropWhile Char.isWhitespace :=
  List.dropWhile_append_of_pos (List.all_eq_true.mp h)

theorem dropWhile_eq_self_append {p : Char → Bool} {l₁ : List Char} (l₂ : List Char)
    (h : l₁.dropWhile p = l₁) (hne : l₁ ≠ []) :
    (l₁ ++ l₂).dropWhile p = l₁ ++ l₂ := by
  cases l₁ with
  | nil => exact absurd rfl hne
  | cons a t =>
    have hpa : p a = false := by
      cases hp : p a with
      | false => rfl
      | true =>
        rw [List.dropWhile_cons_of_pos hp] at h
        have hle : (t.dropWhile p).length ≤ t.length := (List.dropWhile_sublist p).length_le
        rw [h, List.length_cons] at hle
        omega
    rw [List.cons_append, List.dropWhile_cons_of_neg (by simp [hpa])]

theorem trimL_sandwich {ws1 ws2 l : List Char}
    (h1 : ws1.all Char.isWhitespace = true) (h2 : ws2.all Char.isWhitespace = true)
    (hl : l.dropWhile Char.isWhitespace = l)
    (hr : l.reverse.dropWhile Char.isWhitespace = l.reverse) :
    trimL (ws1 ++ l ++ ws2) = l := by
  unfold trimL
  rw [List.append_assoc, dropWhile_ws_append h1]
  by_cases hne : l = []
  · subst hne
    have hws2 : ws2.dropWhile Char.isWhitespace = [] := by
      have hx := @dropWhile_ws_append ws2 [] h2
      simpa using hx
    simp [hws2]
  · rw [dropWhile_eq_self_append ws2 hl hne, List.reverse_append,
      dropWhile_ws_append (by simpa using h2), hr, List.reverse_reverse]

theorem trimL_eq_self {l : List Char}
    (hl : l.dropWhile Char.isWhitespace = l)
    (hr : l.reverse.dropWhile Char.isWhitespace = l.reverse) : trimL l = l := by
  have h := @trimL_sandwich [] [] l rfl rfl hl hr
  simpa using h

theorem sanitizeList_plain {raw : List Char}
    (hl : raw.dropWhile Char.isWhitespace = raw)
    (hr : raw.reverse.dropWhile Char.isWhitespace = raw.reverse)
    (hnb : "Bot ".data.isPrefixOf raw = false) :
    sanitizeList raw = raw := by
  unfold sanitizeList
  rw [trimL_eq_self hl hr]
  simp [hnb]

theorem sanitizeList_bot {raw : List Char} (hne : raw ≠ [])
    (hl : raw.dropWhile Char.isWhitespace = raw)
    (hr : raw.reverse.dropWhile Char.isWhitespace = raw.reverse) :
    sanitizeList ("Bot ".data ++ raw) = raw := by
  unfold sanitizeList
  have hmid : trimL ("Bot ".data ++ raw) = "Bot ".data ++ raw := by
    apply trimL_eq_self
    · exact dropWhile_eq_self_append raw (by decide) (by decide)
    · rw [List.reverse_append]
      exact dropWhile_eq_self_append _ hr (by simpa using hne)
  rw [hmid, if_pos (by simp [List.isPrefixOf_iff_prefix]), List.drop_left' (by decide)]
  exact trimL_eq_self hl hr

theorem sanitizeList_sandwich_plain {ws1 ws2 raw : List Char}
    (hw1 : ws1.all Char.isWhitespace = true) (hw2 : ws2.all Char.isWhitespace = true)
    (hl : raw.dropWhile Char.isWhitespace = raw)
    (hr : raw.reverse.dropWhile Char.isWhitespace = raw.reverse)
    (hnb : "Bot ".data.isPrefixOf raw = false) :
    sanitizeList (ws1 ++ raw ++ ws2) = raw := by
  unfold sanitizeList
  rw [trimL_sandwich hw1 hw2 hl hr]
  simp [hnb]

theorem sanitizeList_sandwich_bot {ws1 ws2 raw : List Char} (hne : raw ≠ [])
    (hw1 : ws1.all Char.isWhitespace = true) (hw2 : ws2.all Char.isWhitespace = true)
    (hl : raw.dropWhile Char.isWhitespace = raw)
    (hr : raw.reverse.dropWhile Char.isWhitespace = raw.reverse) :
    sanitizeList (ws1 ++ ("Bot ".data ++ raw) ++ ws2) = raw := by
  unfold sanitizeList
  have hmid_l : ("Bot ".data ++ raw).dropWhile Char.isWhitespace = "Bot ".data ++ raw :=
    dropWhile_eq_self_append raw (by decide) (by decide)
  have hmid_r : ("Bot ".data ++ raw).reverse.dropWhile Char.isWhitespace
      = ("Bot ".data ++ raw).reverse := by
    rw [List.reverse_append]
    exact dropWhile_eq_self_append _ hr (by simpa using hne)
  rw [trimL_sandwich hw1 hw2 hmid_l hmid_r,
    if_pos (by simp [List.isPrefixOf_iff_prefix]), List.drop_left' (by decide)]
  exact trimL_eq_self hl hr

/-- C8: token sanitization trims surrounding whitespace and strips one leading
case-sensitive `"Bot "` prefix, so a raw token (nonempty, no surrounding
whitespace, not itself starting with `"Bot "`) pasted bare, with the prefix,
and/or with surrounding whitespace always normalizes to the same raw token,
which the outgoing authorization header then re-prefixes with `"Bot "`. -/
theorem c8_token_sanitization (raw ws1 ws2 : String)
    (hne : raw ≠ "")
    (hl : raw.data.dropWhile Char.isWhitespace = raw.data)
    (hr : raw.data.reverse.dropWhile Char.isWhitespace = raw.data.reverse)
    (hnb : "Bot ".data.isPrefixOf raw.data = false)
    (hw1 : ws1.data.all Char.isWhitespace = true)
    (hw2 : ws2.data.all Char.isWhitespace = true) :
    sanitizeToken (some raw) = raw
  ∧ sanitizeToken (some ("Bot " ++ raw)) = raw
  ∧ sanitizeToken (some (ws1 ++ raw ++ ws2)) = raw
  ∧ sanitizeToken (some (ws1 ++ "Bot " ++ raw ++ ws2)) = raw
  ∧ outgoingAuthHeader (sanitizeToken (some raw)) = "Bot " ++ raw := by
  have hdne : raw.data ≠ [] := by
    intro h
    apply hne
    cases raw with
    | mk l =>
      have hl0 : l = [] := h
      subst hl0
      rfl
  have hplain : sanitizeToken (some raw) = raw := by
    simp only [sanitizeToken]
    rw [sanitizeList_plain hl hr hnb]
  refine ⟨hplain, ?_, ?_, ?_, ?_⟩
  · simp only [sanitizeToken, String.data_append]
    rw [sanitizeList_bot hdne hl hr]
  · simp only [sanitizeToken, String.data_append]
    rw [sanitizeList_sandwich_plain hw1 hw2 hl hr hnb]
  · simp only [sanitizeToken]
    have hdata : (ws1 ++ "Bot " ++ raw ++ ws2).data
        = ws1.data ++ ("Bot ".data ++ raw.data) ++ ws2.data := by
      simp [List.append_assoc]
    rw [hdata, sanitizeList_sandwich_bot hdne hw1 hw2 hl hr]
  · rw [hplain]
    rfl

theorem c8_token_sanitization_witness :
    sanitizeToken (some "tok123") = "tok123"
  ∧ sanitizeToken (some ("Bot " ++ "tok123")) = "tok123"
  ∧ sanitizeToken (some (" " ++ "tok123" ++ "  ")) = "tok123"
  ∧ sanitizeToken (some (" " ++ "Bot " ++ "tok123" ++ "  ")) = "tok123"
  ∧ outgoingAuthHeader (sanitizeToken (some "tok123")) = "Bot " ++ "tok123" :=
  c8_token_sanitization "tok123" " " "  " (by decide) (by decide) (by decide)
    (by decide) (by decide) (by decide)

end Urnisa
